import Mathlib

/-
Verification of the dimension/fact loading core of the insurance star-schema
ETL pipeline (Assessment 3, student-starter variant).

Shallow embedding conventions:
* A Python dict used as a surrogate-key mapping is modelled as an association
  list (List (String × Nat)) with dict-assignment semantics: assigning to an
  existing key overwrites its value in place, assigning to a fresh key appends
  the pair at the end (dictInsert).  dict.get is dictGet, dict.update is
  dictUpdate (replay of one dict's entries into another).
* A dimension table (dim_customer, dim_agent) is a DimStore: a list of rows
  (surrogate_key, business_key, attributes) plus the identity counter that the
  database would use to generate the next surrogate key (SELECT IDENTITY after
  an INSERT returns the counter value used for that row).
* A per-record database failure (malformed value, constraint violation) that
  the source catches with try/except around the record loop body is modelled
  by a Boolean dbFails flag on the record: when set, the record's effects do
  not happen and processing continues with the next record.
* The fact-table INSERT performed by load_single_claim_fact is external
  input/output; its success/failure outcome is an oracle
  insertOk : ResolvedClaim → Bool passed to the batch processor (the source
  returns True on success and False when the driver raises DatabaseError).
* GETDATE() timestamps (created_date/updated_date) and the is_active flag are
  not observable by any claim and are omitted from the row payload.
-/

/-- Python dict assignment on an association list: overwrite the first
occurrence of the key in place, otherwise append the new pair at the end. -/
def dictInsert : List (String × Nat) → String → Nat → List (String × Nat)
  | [], k, v => [(k, v)]
  | (a, b) :: t, k, v => if a == k then (k, v) :: t else (a, b) :: dictInsert t k v

/-- Python dict.get on an association list: value of the first occurrence. -/
def dictGet : List (String × Nat) → String → Option Nat
  | [], _ => none
  | (a, b) :: t, k => if a == k then some b else dictGet t k

/-- Python dict.update: replay every entry of the second dict into the first. -/
def dictUpdate (m entries : List (String × Nat)) : List (String × Nat) :=
  entries.foldl (fun acc p => dictInsert acc p.1 p.2) m

/-- Key list of a dict. -/
def dictKeys (m : List (String × Nat)) : List String := m.map Prod.fst

theorem dictKeys_nil : dictKeys [] = [] := rfl

theorem dictKeys_cons (a : String) (b : Nat) (t : List (String × Nat)) :
    dictKeys ((a, b) :: t) = a :: dictKeys t := rfl

theorem dictGet_nil (k : String) : dictGet [] k = none := rfl

theorem dictGet_dictInsert (m : List (String × Nat)) (k : String) (v : Nat)
    (q : String) :
    dictGet (dictInsert m k v) q = if q = k then some v else dictGet m q := by
  induction m with
  | nil =>
    by_cases h : q = k
    · subst h; simp [dictInsert, dictGet]
    · simp [dictInsert, dictGet, beq_iff_eq, Ne.symm h, h]
  | cons p t ih =>
    obtain ⟨a, b⟩ := p
    by_cases hak : a = k
    · subst hak
      by_cases hq : q = a
      · subst hq; simp [dictInsert, dictGet]
      · simp [dictInsert, dictGet, beq_iff_eq, Ne.symm hq, hq]
    · by_cases haq : a = q
      · subst haq
        have hqk : ¬a = k := hak
        simp [dictInsert, dictGet, beq_iff_eq, hak, hqk]
      · simp [dictInsert, dictGet, beq_iff_eq, hak, haq, ih]

theorem dictKeys_dictInsert (m : List (String × Nat)) (k : String) (v : Nat) :
    dictKeys (dictInsert m k v) =
      if k ∈ dictKeys m then dictKeys m else dictKeys m ++ [k] := by
  induction m with
  | nil => simp [dictInsert, dictKeys]
  | cons p t ih =>
    obtain ⟨a, b⟩ := p
    by_cases hak : a = k
    · subst hak
      simp [dictInsert, dictKeys_cons]
    · simp only [dictInsert, beq_iff_eq, if_neg hak, dictKeys_cons, ih]
      by_cases hk : k ∈ dictKeys t
      · simp [hk, Ne.symm hak]
      · simp [hk, Ne.symm hak]

theorem nodup_dictKeys_dictInsert (m : List (String × Nat)) (k : String) (v : Nat)
    (hm : (dictKeys m).Nodup) : (dictKeys (dictInsert m k v)).Nodup := by
  rw [dictKeys_dictInsert]
  by_cases hk : k ∈ dictKeys m
  · simpa [hk] using hm
  · simp [hk, List.nodup_append, hm]

/-- Assigning a key not present in the dict appends the pair at the end. -/
theorem dictInsert_of_not_mem (m : List (String × Nat)) (k : String) (v : Nat)
    (h : k ∉ dictKeys m) : dictInsert m k v = m ++ [(k, v)] := by
  induction m with
  | nil => rfl
  | cons p t ih =>
    obtain ⟨a, b⟩ := p
    rw [dictKeys_cons] at h
    simp only [List.mem_cons, not_or] at h
    simp only [dictInsert, beq_iff_eq, if_neg (fun h2 : a = k => h.1 h2.symm),
      List.cons_append, List.cons.injEq, true_and]
    exact ih h.2

/-- Replaying a dict with distinct keys, all fresh for the target, is list
append. -/
theorem dictUpdate_of_disjoint (d : List (String × Nat)) :
    ∀ m : List (String × Nat), (dictKeys d).Nodup →
    (∀ k ∈ dictKeys d, k ∉ dictKeys m) → dictUpdate m d = m ++ d := by
  induction d with
  | nil => intro m _ _; simp [dictUpdate]
  | cons p t ih =>
    intro m hnd hdisj
    obtain ⟨a, b⟩ := p
    rw [dictKeys_cons] at hnd hdisj
    simp only [List.nodup_cons] at hnd
    have ha : a ∉ dictKeys m := hdisj a (by simp)
    have step : dictUpdate m ((a, b) :: t) = dictUpdate (m ++ [(a, b)]) t := by
      simp [dictUpdate, dictInsert_of_not_mem m a b ha]
    rw [step, ih (m ++ [(a, b)]) hnd.2]
    · simp
    · intro k hk
      have hkm : k ∉ dictKeys m := hdisj k (by simp [hk])
      have hka : k ≠ a := fun h => hnd.1 (h ▸ hk)
      have hsplit : dictKeys (m ++ [(a, b)]) = dictKeys m ++ [a] := by
        simp [dictKeys]
      rw [hsplit]
      simp only [List.mem_append, List.mem_singleton, not_or]
      exact ⟨hkm, hka⟩

/-- Replaying a dict with distinct keys from the empty dict reproduces it. -/
theorem dictUpdate_nil (d : List (String × Nat)) (hnd : (dictKeys d).Nodup) :
    dictUpdate [] d = d := by
  have := dictUpdate_of_disjoint d [] hnd (by simp [dictKeys_nil])
  simpa using this

/-- Lookup after a dict.update: an entry of the replayed dict wins, otherwise
the target dict answers. -/
theorem dictGet_dictUpdate (d : List (String × Nat)) :
    ∀ (m : List (String × Nat)) (k : String),
    dictGet (dictUpdate m d) k =
      match dictGet (dictUpdate [] d) k with
      | some v => some v
      | none => dictGet m k := by
  induction d with
  | nil => intro m k; simp [dictUpdate, dictGet]
  | cons p t ih =>
    intro m k
    obtain ⟨a, b⟩ := p
    have h1 : dictUpdate m ((a, b) :: t) = dictUpdate (dictInsert m a b) t := rfl
    have h2 : dictUpdate [] ((a, b) :: t) = dictUpdate (dictInsert [] a b) t := rfl
    rw [h1, h2, ih (dictInsert m a b) k, ih (dictInsert [] a b) k]
    cases hx : dictGet (dictUpdate [] t) k with
    | some v => simp
    | none =>
      simp only [dictGet_dictInsert]
      by_cases hk : k = a <;> simp [hk, dictGet_nil]

/-- Fixed-size chunking of a record list, as the Python loop
for i in range(0, len(records), batch_size): batch = records[i : i + batch_size].
A batch size of zero is outside the source's domain (Python range would raise)
and yields no chunks. -/
def chunkList (n : Nat) (l : List α) : List (List α) :=
  if h : l.length = 0 ∨ n = 0 then []
  else l.take n :: chunkList n (l.drop n)
termination_by l.length
decreasing_by
  rcases not_or.mp h with ⟨h1, h2⟩
  simp only [List.length_drop]
  omega

theorem chunkList_nil (n : Nat) : chunkList n ([] : List α) = [] := by
  rw [chunkList]; simp

theorem chunkList_flatten (n : Nat) (hn : 0 < n) (l : List α) :
    (chunkList n l).flatten = l := by
  have key : ∀ (fuel : Nat) (l : List α), l.length ≤ fuel →
      (chunkList n l).flatten = l := by
    intro fuel
    induction fuel with
    | zero =>
      intro l hl
      have : l = [] := List.length_eq_zero.mp (Nat.le_zero.mp hl)
      subst this
      simp [chunkList_nil]
    | succ m ih =>
      intro l hl
      cases l with
      | nil => simp [chunkList_nil]
      | cons x xs =>
        rw [chunkList]
        have hcond : ¬((x :: xs).length = 0 ∨ n = 0) := by
          simp only [List.length_cons, not_or]
          omega
        rw [dif_neg hcond]
        have hdrop : ((x :: xs).drop n).length ≤ m := by
          simp only [List.length_drop]
          have hlen : (x :: xs).length ≤ m + 1 := hl
          omega
        simp only [List.flatten_cons, ih _ hdrop, List.take_append_drop]
  exact key l.length l le_rfl

/-- A dimension table: rows of (surrogate_key, business_key, attributes) plus
the identity counter used to generate the next surrogate key. -/
structure DimStore (α : Type) where
  rows : List (Nat × String × α)
  nextKey : Nat
deriving DecidableEq

/-- SELECT <dim>_key FROM <dim> WHERE <business key column> = bk — surrogate
key of the first row carrying the business key. -/
def DimStore.lookup (s : DimStore α) (bk : String) : Option Nat :=
  (s.rows.find? (fun r => r.2.1 == bk)).map (fun r => r.1)

/-- UPDATE <dim> SET <attributes> WHERE <business key column> = bk — SCD
Type 1 overwrite of the attribute columns of every row with the business key;
surrogate keys and business keys are untouched. -/
def DimStore.updateRow (s : DimStore α) (bk : String) (a : α) : DimStore α :=
  { s with rows := s.rows.map (fun r => if r.2.1 == bk then (r.1, r.2.1, a) else r) }

/-- INSERT INTO <dim> ... followed by SELECT IDENTITY: appends a row with the
next generated surrogate key and returns that key. -/
def DimStore.insertRow (s : DimStore α) (bk : String) (a : α) : DimStore α × Nat :=
  ({ rows := s.rows ++ [(s.nextKey, bk, a)], nextKey := s.nextKey + 1 }, s.nextKey)

/-- Attribute columns of dim_customer (updated_date omitted, see header). -/
structure CustomerAttrs where
  first_name : String
  last_name : String
  full_name : String
  email : String
  phone : String
  birth_date : String
  age : Int
  address : String
  city : String
  state : String
  risk_score : Int
  risk_tier : String
  customer_since : String
deriving DecidableEq

/-- A transformed customer record: business key, attribute payload, and the
flag modelling a per-record database failure (see header). -/
structure CustomerRec where
  customer_id : String
  attrs : CustomerAttrs
  dbFails : Bool
deriving DecidableEq

/-- Attribute columns of dim_agent (created_date/is_active omitted). -/
structure AgentAttrs where
  first_name : String
  last_name : String
  full_name : String
  region : String
  experience_years : Int
  hire_date : String
deriving DecidableEq

/-- A transformed agent record. -/
structure AgentRec where
  agent_id : String
  attrs : AgentAttrs
  dbFails : Bool
deriving DecidableEq

/-- Loop body of process_customer_batch for one customer record.  Mirrors the
source exactly: on the update branch the surrogate-key pair is NOT recorded in
the result dict (the assignment sits inside the insert-only else block of the
source); on the insert branch it is. -/
def process_customer_record (acc : DimStore CustomerAttrs × List (String × Nat))
    (c : CustomerRec) : DimStore CustomerAttrs × List (String × Nat) :=
  if c.dbFails then acc
  else
    match acc.1.lookup c.customer_id with
    | some _ => (acc.1.updateRow c.customer_id c.attrs, acc.2)
    | none =>
      let ins := acc.1.insertRow c.customer_id c.attrs
      (ins.1, dictInsert acc.2 c.customer_id ins.2)

/-- process_customer_batch: fold the loop body over the batch, starting from
an empty surrogate_keys dict; returns the updated store and the dict. -/
def process_customer_batch (s : DimStore CustomerAttrs) (customers : List CustomerRec) :
    DimStore CustomerAttrs × List (String × Nat) :=
  customers.foldl process_customer_record (s, [])

/-- Loop body of process_agent_batch for one agent record.  Here the
surrogate-key pair IS recorded after both branches, as in the source. -/
def process_agent_record (acc : DimStore AgentAttrs × List (String × Nat))
    (a : AgentRec) : DimStore AgentAttrs × List (String × Nat) :=
  if a.dbFails then acc
  else
    match acc.1.lookup a.agent_id with
    | some agent_key => (acc.1.updateRow a.agent_id a.attrs, dictInsert acc.2 a.agent_id agent_key)
    | none =>
      let ins := acc.1.insertRow a.agent_id a.attrs
      (ins.1, dictInsert acc.2 a.agent_id ins.2)

/-- process_agent_batch of the source. -/
def process_agent_batch (s : DimStore AgentAttrs) (agents : List AgentRec) :
    DimStore AgentAttrs × List (String × Nat) :=
  agents.foldl process_agent_record (s, [])

/-- Per-chunk step of load_customer_dimension: process the chunk and merge its
dict into the accumulated surrogate_keys via dict.update. -/
def merge_customer_chunk (acc : DimStore CustomerAttrs × List (String × Nat))
    (batch : List CustomerRec) : DimStore CustomerAttrs × List (String × Nat) :=
  let r := process_customer_batch acc.1 batch
  (r.1, dictUpdate acc.2 r.2)

/-- load_customer_dimension: chunk the record list by batch_size, process each
chunk against the evolving store, and merge the per-chunk dicts. -/
def load_customer_dimension (batch_size : Nat) (s : DimStore CustomerAttrs)
    (customers : List CustomerRec) : DimStore CustomerAttrs × List (String × Nat) :=
  (chunkList batch_size customers).foldl merge_customer_chunk (s, [])

/-- A transformed claims fact record (business-keyed).  Date keys are Optional
integers because the raw values may be absent (None); the truthiness tests of
the source distinguish None, zero, and nonzero values. -/
structure ClaimRec where
  claim_id : String
  customer_id : String
  policy_id : String
  agent_id : String
  filed_date_key : Option Int
  closed_date_key : Option Int
  claim_amount : Int
  coverage_amount : Int
  deductible_amount : Int
  payout_amount : Int
  processing_days : Int
  claim_status : String
deriving DecidableEq

/-- A claim record after surrogate-key resolution, as built by
resolve_surrogate_keys in the source. -/
structure ResolvedClaim where
  claim_id : String
  customer_key : Nat
  policy_key : Nat
  agent_key : Nat
  filed_date_key : Int
  closed_date_key : Option Int
  claim_amount : Int
  coverage_amount : Int
  deductible_amount : Int
  payout_amount : Int
  processing_days : Int
  claim_status : String
deriving DecidableEq

/-- The Surrogate Key Directory handed from dimension loading to fact
loading: one dict per dimension type. -/
structure SurrogateKeyMappings where
  dim_customer : List (String × Nat)
  dim_policy : List (String × Nat)
  dim_agent : List (String × Nat)
deriving DecidableEq

/-- resolve_surrogate_keys of the source.  Each required reference is read
with dict.get and tested with Python truthiness (None and 0 are both falsy),
then the filed date key is tested the same way; the optional closed date key
becomes None unless it is a positive integer.  Measures and the status pass
through unchanged. -/
def resolve_surrogate_keys (claim : ClaimRec) (m : SurrogateKeyMappings) :
    Option ResolvedClaim :=
  match dictGet m.dim_customer claim.customer_id with
  | none => none
  | some customer_key =>
  if customer_key = 0 then none else
  match dictGet m.dim_policy claim.policy_id with
  | none => none
  | some policy_key =>
  if policy_key = 0 then none else
  match dictGet m.dim_agent claim.agent_id with
  | none => none
  | some agent_key =>
  if agent_key = 0 then none else
  match claim.filed_date_key with
  | none => none
  | some filed_date_key =>
  if filed_date_key = 0 then none else
  some { claim_id := claim.claim_id
         customer_key := customer_key
         policy_key := policy_key
         agent_key := agent_key
         filed_date_key := filed_date_key
         closed_date_key :=
           match claim.closed_date_key with
           | some c => if 0 < c then some c else none
           | none => none
         claim_amount := claim.claim_amount
         coverage_amount := claim.coverage_amount
         deductible_amount := claim.deductible_amount
         payout_amount := claim.payout_amount
         processing_days := claim.processing_days
         claim_status := claim.claim_status }

/-- The statistics dict of load_claims_facts. -/
structure FactStats where
  total_processed : Nat
  successfully_loaded : Nat
  failed_validation : Nat
  duplicate_claims : Nat
deriving DecidableEq

/-- Zero-initialised statistics. -/
def statsZero : FactStats :=
  { total_processed := 0, successfully_loaded := 0, failed_validation := 0
    duplicate_claims := 0 }

/-- Field-wise accumulation stats[key] += value of the source. -/
def FactStats.add (a b : FactStats) : FactStats :=
  { total_processed := a.total_processed + b.total_processed
    successfully_loaded := a.successfully_loaded + b.successfully_loaded
    failed_validation := a.failed_validation + b.failed_validation
    duplicate_claims := a.duplicate_claims + b.duplicate_claims }

/-- The persisted fact table plus the in-memory existing_claims set (loaded
once per run by get_existing_claim_ids and extended as facts are accepted). -/
structure FactStore where
  rows : List ResolvedClaim
  existing : List String
deriving DecidableEq

/-- Loop body of process_claims_batch for one claim record: count it, check
the duplicate set, resolve surrogate keys, then attempt the single-row insert
(whose outcome the insertOk oracle decides); each outcome bumps exactly one
counter, and an accepted claim extends both the fact rows and the duplicate
set. -/
def process_claim_record (insertOk : ResolvedClaim → Bool)
    (m : SurrogateKeyMappings) (acc : FactStats × FactStore) (claim : ClaimRec) :
    FactStats × FactStore :=
  let stats := { acc.1 with total_processed := acc.1.total_processed + 1 }
  if acc.2.existing.contains claim.claim_id then
    ({ stats with duplicate_claims := stats.duplicate_claims + 1 }, acc.2)
  else
    match resolve_surrogate_keys claim m with
    | none => ({ stats with failed_validation := stats.failed_validation + 1 }, acc.2)
    | some rc =>
      if insertOk rc then
        ({ stats with successfully_loaded := stats.successfully_loaded + 1 },
         { rows := acc.2.rows ++ [rc], existing := acc.2.existing ++ [claim.claim_id] })
      else
        ({ stats with failed_validation := stats.failed_validation + 1 }, acc.2)

/-- process_claims_batch of the source: fold the loop body over the batch
starting from zeroed batch statistics. -/
def process_claims_batch (insertOk : ResolvedClaim → Bool) (claims : List ClaimRec)
    (m : SurrogateKeyMappings) (st : FactStore) : FactStats × FactStore :=
  claims.foldl (process_claim_record insertOk m) (statsZero, st)

/-- Per-chunk step of load_claims_facts: process the chunk against the
current store and add its statistics into the run totals. -/
def merge_claims_chunk (insertOk : ResolvedClaim → Bool) (m : SurrogateKeyMappings)
    (acc : FactStats × FactStore) (batch : List ClaimRec) : FactStats × FactStore :=
  let r := process_claims_batch insertOk batch m acc.2
  (FactStats.add acc.1 r.1, r.2)

/-- load_claims_facts of the source: chunk by batch_size and accumulate. -/
def load_claims_facts (insertOk : ResolvedClaim → Bool) (batch_size : Nat)
    (claims : List ClaimRec) (m : SurrogateKeyMappings) (st : FactStore) :
    FactStats × FactStore :=
  (chunkList batch_size claims).foldl (merge_claims_chunk insertOk m) (statsZero, st)

/-- The loaded warehouse as seen by the referential-integrity validator: the
fact rows and the key columns of the four referenced dimension tables. -/
structure Warehouse where
  fact_claims : List ResolvedClaim
  customer_keys : List Nat
  policy_keys : List Nat
  agent_keys : List Nat
  date_keys : List Int
deriving DecidableEq

/-- The four orphan counts computed by the validation queries, in source
order (customers, policies, agents, filed_dates): fact rows whose reference
matches no dimension row. -/
def orphaned_counts (w : Warehouse) : List Nat :=
  [ (w.fact_claims.filter (fun f => !(w.customer_keys.contains f.customer_key))).length
  , (w.fact_claims.filter (fun f => !(w.policy_keys.contains f.policy_key))).length
  , (w.fact_claims.filter (fun f => !(w.agent_keys.contains f.agent_key))).length
  , (w.fact_claims.filter (fun f => !(w.date_keys.contains f.filed_date_key))).length ]

/-- validate_fact_referential_integrity of the source: all_valid starts True
and is cleared whenever a validation query reports a nonzero orphan count. -/
def validate_fact_referential_integrity (w : Warehouse) : Bool :=
  (orphaned_counts w).foldl (fun all_valid c => if c > 0 then false else all_valid) true

theorem stats_add_zero (s : FactStats) : FactStats.add s statsZero = s := by
  obtain ⟨a, b, c, d⟩ := s
  simp [FactStats.add, statsZero]

theorem stats_add_assoc (a b c : FactStats) :
    FactStats.add (FactStats.add a b) c = FactStats.add a (FactStats.add b c) := by
  obtain ⟨a1, a2, a3, a4⟩ := a
  obtain ⟨b1, b2, b3, b4⟩ := b
  obtain ⟨c1, c2, c3, c4⟩ := c
  simp [FactStats.add, Nat.add_assoc]

/-- One claim-record step from arbitrary accumulated statistics equals the
step from zeroed statistics with the delta added. -/
theorem process_claim_record_shift (insertOk : ResolvedClaim → Bool)
    (m : SurrogateKeyMappings) (s : FactStats) (st : FactStore) (c : ClaimRec) :
    process_claim_record insertOk m (s, st) c =
      (FactStats.add s (process_claim_record insertOk m (statsZero, st) c).1,
       (process_claim_record insertOk m (statsZero, st) c).2) := by
  obtain ⟨t0, l0, f0, d0⟩ := s
  unfold process_claim_record
  cases hdup : st.existing.contains c.claim_id with
  | true => simp [hdup, FactStats.add, statsZero]
  | false =>
    cases hres : resolve_surrogate_keys c m with
    | none => simp [hdup, hres, FactStats.add, statsZero]
    | some rc =>
      cases hins : insertOk rc with
      | true => simp [hdup, hres, hins, FactStats.add, statsZero]
      | false => simp [hdup, hres, hins, FactStats.add, statsZero]

/-- Folding a claim batch from arbitrary accumulated statistics equals the
fold from zeroed statistics with the batch delta added; the store evolution
is independent of the accumulated statistics. -/
theorem claims_fold_shift (l : List ClaimRec) (insertOk : ResolvedClaim → Bool)
    (m : SurrogateKeyMappings) :
    ∀ acc : FactStats × FactStore,
    l.foldl (process_claim_record insertOk m) acc =
      (FactStats.add acc.1
        (l.foldl (process_claim_record insertOk m) (statsZero, acc.2)).1,
       (l.foldl (process_claim_record insertOk m) (statsZero, acc.2)).2) := by
  induction l with
  | nil =>
    intro acc
    obtain ⟨s, st⟩ := acc
    simp [stats_add_zero]
  | cons c t ih =>
    intro acc
    obtain ⟨s, st⟩ := acc
    simp only [List.foldl_cons]
    rw [process_claim_record_shift insertOk m s st c,
      ih ((FactStats.add s (process_claim_record insertOk m (statsZero, st) c).1),
        (process_claim_record insertOk m (statsZero, st) c).2),
      ih (process_claim_record insertOk m (statsZero, st) c)]
    simp only [stats_add_assoc]

/-- Folding chunk merges equals one fold over the concatenation of the
chunks: statistics are summed and the store threads through. -/
theorem claims_chunks_fold (cs : List (List ClaimRec)) (insertOk : ResolvedClaim → Bool)
    (m : SurrogateKeyMappings) :
    ∀ acc : FactStats × FactStore,
    cs.foldl (merge_claims_chunk insertOk m) acc =
      (FactStats.add acc.1
        (cs.flatten.foldl (process_claim_record insertOk m) (statsZero, acc.2)).1,
       (cs.flatten.foldl (process_claim_record insertOk m) (statsZero, acc.2)).2) := by
  induction cs with
  | nil =>
    intro acc
    obtain ⟨s, st⟩ := acc
    simp [stats_add_zero]
  | cons c t ih =>
    intro acc
    obtain ⟨s, st⟩ := acc
    simp only [List.foldl_cons, List.flatten_cons, List.foldl_append,
      merge_claims_chunk, process_claims_batch]
    rw [ih ((FactStats.add s (c.foldl (process_claim_record insertOk m) (statsZero, st)).1),
         (c.foldl (process_claim_record insertOk m) (statsZero, st)).2),
      claims_fold_shift t.flatten insertOk m
        (c.foldl (process_claim_record insertOk m) (statsZero, st))]
    simp only [stats_add_assoc]

/-- The surrogate_keys dict built by the customer batch loop always has
distinct keys. -/
theorem nodup_customer_fold (l : List CustomerRec) :
    ∀ (s : DimStore CustomerAttrs) (d : List (String × Nat)),
    (dictKeys d).Nodup →
    (dictKeys (l.foldl process_customer_record (s, d)).2).Nodup := by
  induction l with
  | nil => intro s d hd; exact hd
  | cons c t ih =>
    intro s d hd
    simp only [List.foldl_cons]
    cases hf : c.dbFails with
    | true =>
      simp only [process_customer_record, hf, if_true]
      exact ih s d hd
    | false =>
      cases hl : DimStore.lookup s c.customer_id with
      | some k0 =>
        simp only [process_customer_record, hf, Bool.false_eq_true, if_false, hl]
        exact ih _ d hd
      | none =>
        simp only [process_claim_record, process_customer_record, hf,
          Bool.false_eq_true, if_false, hl]
        exact ih _ _ (nodup_dictKeys_dictInsert d c.customer_id _ hd)

/-- The store evolution of the customer batch loop does not depend on the
accumulated dict, and the dict from an arbitrary start is, pointwise, the
dict from an empty start with the start as fallback. -/
theorem customer_fold_shift (l : List CustomerRec) :
    ∀ (s : DimStore CustomerAttrs) (d : List (String × Nat)),
    (l.foldl process_customer_record (s, d)).1 =
      (l.foldl process_customer_record (s, [])).1 ∧
    ∀ k, dictGet (l.foldl process_customer_record (s, d)).2 k =
      match dictGet (l.foldl process_customer_record (s, [])).2 k with
      | some v => some v
      | none => dictGet d k := by
  induction l with
  | nil =>
    intro s d
    constructor
    · rfl
    · intro k; simp [dictGet_nil]
  | cons c t ih =>
    intro s d
    simp only [List.foldl_cons]
    cases hf : c.dbFails with
    | true =>
      simp only [process_customer_record, hf, if_true]
      exact ih s d
    | false =>
      cases hl : DimStore.lookup s c.customer_id with
      | some k0 =>
        simp only [process_customer_record, hf, Bool.false_eq_true, if_false, hl]
        exact ih _ d
      | none =>
        simp only [process_customer_record, hf, Bool.false_eq_true, if_false, hl]
        have ih1 := ih (s.insertRow c.customer_id c.attrs).1
          (dictInsert d c.customer_id (s.insertRow c.customer_id c.attrs).2)
        have ih2 := ih (s.insertRow c.customer_id c.attrs).1
          (dictInsert [] c.customer_id (s.insertRow c.customer_id c.attrs).2)
        constructor
        · rw [ih1.1, ih2.1]
        · intro k
          rw [ih1.2 k, ih2.2 k]
          cases hx : dictGet
              ((t.foldl process_customer_record
                ((s.insertRow c.customer_id c.attrs).1, []))).2 k with
          | some v => simp
          | none =>
            simp only [dictGet_dictInsert, dictGet_nil]
            by_cases hk : k = c.customer_id <;> simp [hk]

/-- Folding chunk merges for the customer dimension equals one batch fold
over the concatenation: the store is identical and the merged dict agrees
pointwise. -/
theorem customer_chunks_fold (cs : List (List CustomerRec)) :
    ∀ (s : DimStore CustomerAttrs) (acc : List (String × Nat)),
    (cs.foldl merge_customer_chunk (s, acc)).1 =
      (cs.flatten.foldl process_customer_record (s, [])).1 ∧
    ∀ k, dictGet (cs.foldl merge_customer_chunk (s, acc)).2 k =
      match dictGet (cs.flatten.foldl process_customer_record (s, [])).2 k with
      | some v => some v
      | none => dictGet acc k := by
  induction cs with
  | nil =>
    intro s acc
    constructor
    · rfl
    · intro k; simp [dictGet_nil]
  | cons c t ih =>
    intro s acc
    simp only [List.foldl_cons, List.flatten_cons, List.foldl_append,
      merge_customer_chunk, process_customer_batch]
    have hr2 : (dictKeys (c.foldl process_customer_record (s, [])).2).Nodup :=
      nodup_customer_fold c s [] (by rw [dictKeys_nil]; exact List.nodup_nil)
    have ihm := ih (c.foldl process_customer_record (s, [])).1
      (dictUpdate acc (c.foldl process_customer_record (s, [])).2)
    have hshift := customer_fold_shift t.flatten
      (c.foldl process_customer_record (s, [])).1
      (c.foldl process_customer_record (s, [])).2
    constructor
    · rw [ihm.1, ← hshift.1]
    · intro k
      rw [ihm.2 k]
      have heta : t.flatten.foldl process_customer_record
          (c.foldl process_customer_record (s, [])) =
          t.flatten.foldl process_customer_record
            ((c.foldl process_customer_record (s, [])).1,
             (c.foldl process_customer_record (s, [])).2) := rfl
      rw [heta, hshift.2 k, dictGet_dictUpdate _ acc k,
        dictUpdate_nil _ hr2]
      cases hx : dictGet
          (t.flatten.foldl process_customer_record
            ((c.foldl process_customer_record (s, [])).1, [])).2 k with
      | some v => simp
      | none =>
        cases hy : dictGet (c.foldl process_customer_record (s, [])).2 k <;> simp

/-- Identity-and-business-key projection of a dimension row. -/
def keyPair (r : Nat × String × α) : Nat × String := (r.1, r.2.1)

/-- SCD Type 1 attribute overwrite does not change any surrogate-key
lookup. -/
theorem lookup_updateRow (s : DimStore α) (bk : String) (a : α) (q : String) :
    (s.updateRow bk a).lookup q = s.lookup q := by
  simp only [DimStore.lookup, DimStore.updateRow]
  rw [List.find?_map]
  have hpf : ((fun r : Nat × String × α => r.2.1 == q) ∘
      (fun r => if r.2.1 == bk then (r.1, r.2.1, a) else r)) =
      (fun r => r.2.1 == q) := by
    funext r
    by_cases h : r.2.1 = bk <;> simp [h]
  rw [hpf]
  cases hf : s.rows.find? (fun r => r.2.1 == q) with
  | none => rfl
  | some r =>
    by_cases h : r.2.1 = bk <;> simp [h]

theorem nextKey_updateRow (s : DimStore α) (bk : String) (a : α) :
    (s.updateRow bk a).nextKey = s.nextKey := rfl

/-- SCD Type 1 attribute overwrite preserves every row's surrogate key and
business key. -/
theorem keyPairs_updateRow (s : DimStore α) (bk : String) (a : α) :
    (s.updateRow bk a).rows.map keyPair = s.rows.map keyPair := by
  simp only [DimStore.updateRow]
  induction s.rows with
  | nil => rfl
  | cons r t ih =>
    simp only [List.map_cons, ih, List.cons.injEq, and_true]
    by_cases h : r.2.1 = bk <;> simp [keyPair, h]

/-- A missing required dimension reference makes resolution return None. -/
theorem resolve_none_of_missing (c : ClaimRec) (m : SurrogateKeyMappings)
    (h : dictGet m.dim_customer c.customer_id = none ∨
         dictGet m.dim_policy c.policy_id = none ∨
         dictGet m.dim_agent c.agent_id = none) :
    resolve_surrogate_keys c m = none := by
  unfold resolve_surrogate_keys
  rcases h with h | h | h
  · simp [h]
  · cases hc : dictGet m.dim_customer c.customer_id with
    | none => simp
    | some kc =>
      by_cases hkc : kc = 0
      · simp [hkc]
      · simp [hkc, h]
  · cases hc : dictGet m.dim_customer c.customer_id with
    | none => simp
    | some kc =>
      by_cases hkc : kc = 0
      · simp [hkc]
      · cases hp : dictGet m.dim_policy c.policy_id with
        | none => simp [hkc]
        | some kp =>
          by_cases hkp : kp = 0
          · simp [hkc, hkp]
          · simp [hkc, hkp, h]

/-- A single-record claims batch whose record is not a duplicate and fails
resolution is counted once under failed_validation and leaves the store
untouched. -/
theorem batch_single_failed (insertOk : ResolvedClaim → Bool)
    (m : SurrogateKeyMappings) (st : FactStore) (c : ClaimRec)
    (hdup : st.existing.contains c.claim_id = false)
    (hres : resolve_surrogate_keys c m = none) :
    process_claims_batch insertOk [c] m st =
      ({ total_processed := 1, successfully_loaded := 0, failed_validation := 1,
         duplicate_claims := 0 }, st) := by
  have hdup2 : c.claim_id ∉ st.existing := by simpa using hdup
  simp [process_claims_batch, process_claim_record, hdup2, hres, statsZero]

/-- Every claim record bumps total_processed by one and exactly one of the
three outcome counters, so the partition invariant is preserved by the fold. -/
theorem claims_fold_invariant (l : List ClaimRec) (insertOk : ResolvedClaim → Bool)
    (m : SurrogateKeyMappings) :
    ∀ acc : FactStats × FactStore,
    acc.1.total_processed =
      acc.1.successfully_loaded + acc.1.failed_validation + acc.1.duplicate_claims →
    (l.foldl (process_claim_record insertOk m) acc).1.total_processed =
      (l.foldl (process_claim_record insertOk m) acc).1.successfully_loaded +
      (l.foldl (process_claim_record insertOk m) acc).1.failed_validation +
      (l.foldl (process_claim_record insertOk m) acc).1.duplicate_claims := by
  induction l with
  | nil => intro acc h; exact h
  | cons c t ih =>
    intro acc h
    simp only [List.foldl_cons]
    apply ih
    obtain ⟨⟨t0, l0, f0, d0⟩, st⟩ := acc
    simp only at h
    unfold process_claim_record
    cases hdup : st.existing.contains c.claim_id with
    | true => simp; omega
    | false =>
      cases hres : resolve_surrogate_keys c m with
      | none => simp; omega
      | some rc =>
        cases hins : insertOk rc with
        | true => simp [hins]; omega
        | false => simp [hins]; omega

theorem stats_zero_add (a : FactStats) : FactStats.add statsZero a = a := by
  obtain ⟨a1, a2, a3, a4⟩ := a
  simp [FactStats.add, statsZero]

/-- The all_valid loop of the validator computes the conjunction of the
per-category zero-orphan checks. -/
theorem validator_foldl_all (l : List Nat) :
    ∀ b : Bool, l.foldl (fun all_valid c => if c > 0 then false else all_valid) b =
      (b && l.all (fun c => c == 0)) := by
  induction l with
  | nil => intro b; simp
  | cons c t ih =>
    intro b
    simp only [List.foldl_cons, List.all_cons]
    rw [ih (if c > 0 then false else b)]
    by_cases hc : c > 0
    · have hcz : (c == 0) = false := by
        simp only [beq_eq_false_iff_ne, ne_eq]
        omega
      simp [hc, hcz]
    · have hcz : c = 0 := by omega
      simp [hc, hcz]

def exCAttrs : CustomerAttrs :=
  { first_name := "John", last_name := "Doe", full_name := "John Doe"
    email := "john@x.com", phone := "555-1234", birth_date := "1980-01-01"
    age := 44, address := "1 Main St", city := "Town", state := "CA"
    risk_score := 2, risk_tier := "Medium", customer_since := "2015-01-01" }

def exCAttrs2 : CustomerAttrs := { exCAttrs with email := "new@x.com" }

def exAAttrs : AgentAttrs :=
  { first_name := "Ann", last_name := "Lee", full_name := "Ann Lee"
    region := "West", experience_years := 5, hire_date := "2018-05-01" }

def exAAttrs2 : AgentAttrs := { exAAttrs with region := "East" }

def c1_customer_store : DimStore CustomerAttrs :=
  { rows := [(7, "P001", exCAttrs)], nextKey := 8 }

def c1_customer_batch : List CustomerRec :=
  [ { customer_id := "P001", attrs := exCAttrs2, dbFails := false }
  , { customer_id := "P002", attrs := exCAttrs, dbFails := false } ]

def c1_agent_store : DimStore AgentAttrs :=
  { rows := [(7, "P001", exAAttrs)], nextKey := 8 }

def c1_agent_batch : List AgentRec :=
  [ { agent_id := "P001", attrs := exAAttrs2, dbFails := false }
  , { agent_id := "P002", attrs := exAAttrs, dbFails := false } ]

/-- C1: evaluation of the customer batch processor at the spec's own example
(store already maps P001 to 7; batch holds P001 with changed attributes and
the new P002).  Contrary to the claim, the returned mapping omits the updated
key P001 entirely — the assignment recording the pair sits inside the
insert-only else branch of process_customer_batch — even though the update
itself was applied (the store still resolves P001 to 7 and P002 was inserted
under the fresh key 8).  The agent batch processor, the completed reference
implementation of the same algorithm, returns both pairs as the claim
states. -/
theorem c1_customer_mapping_drops_updated_key :
    dictGet (process_customer_batch c1_customer_store c1_customer_batch).2 "P001" = none ∧
    dictGet (process_customer_batch c1_customer_store c1_customer_batch).2 "P002" = some 8 ∧
    (process_customer_batch c1_customer_store c1_customer_batch).1.lookup "P001" = some 7 ∧
    (process_customer_batch c1_customer_store c1_customer_batch).1.lookup "P002" = some 8 ∧
    dictGet (process_agent_batch c1_agent_store c1_agent_batch).2 "P001" = some 7 ∧
    dictGet (process_agent_batch c1_agent_store c1_agent_batch).2 "P002" = some 8 := by
  decide

/-- C2: surrogate-key assignment is idempotent.  For any customer record and
any agent record whose business keys are already stored under surrogate keys
k and j, a non-failing reprocessing takes the update branch: the store still
resolves the business key to the same surrogate key, the identity counter
does not advance, every row keeps its (surrogate key, business key) pair, and
the agent batch's returned mapping yields the existing key. -/
theorem c2_idempotent_surrogate_keys
    (s : DimStore CustomerAttrs) (c : CustomerRec) (k : Nat)
    (t : DimStore AgentAttrs) (a : AgentRec) (j : Nat)
    (hc : s.lookup c.customer_id = some k) (hcf : c.dbFails = false)
    (ha : t.lookup a.agent_id = some j) (haf : a.dbFails = false) :
    ((process_customer_batch s [c]).1.lookup c.customer_id = some k ∧
     (process_customer_batch s [c]).1.nextKey = s.nextKey ∧
     (process_customer_batch s [c]).1.rows.map keyPair = s.rows.map keyPair) ∧
    ((process_agent_batch t [a]).1.lookup a.agent_id = some j ∧
     (process_agent_batch t [a]).1.nextKey = t.nextKey ∧
     (process_agent_batch t [a]).1.rows.map keyPair = t.rows.map keyPair ∧
     dictGet (process_agent_batch t [a]).2 a.agent_id = some j) := by
  constructor
  · simp only [process_customer_batch, List.foldl_cons, List.foldl_nil,
      process_customer_record, hcf, Bool.false_eq_true, if_false, hc]
    exact ⟨by rw [lookup_updateRow]; exact hc, nextKey_updateRow s _ _,
      keyPairs_updateRow s _ _⟩
  · simp only [process_agent_batch, List.foldl_cons, List.foldl_nil,
      process_agent_record, haf, Bool.false_eq_true, if_false, ha]
    refine ⟨by rw [lookup_updateRow]; exact ha, nextKey_updateRow t _ _,
      keyPairs_updateRow t _ _, ?_⟩
    rw [dictGet_dictInsert]
    simp

def c2_customer_store : DimStore CustomerAttrs :=
  { rows := [(3, "C001", exCAttrs)], nextKey := 4 }

def c2_customer_rec : CustomerRec :=
  { customer_id := "C001", attrs := exCAttrs2, dbFails := false }

def c2_agent_store : DimStore AgentAttrs :=
  { rows := [(9, "A001", exAAttrs)], nextKey := 10 }

def c2_agent_rec : AgentRec :=
  { agent_id := "A001", attrs := exAAttrs2, dbFails := false }

/-- C2 witness: re-upserting C001 (stored under 3) and A001 (stored under 9)
with changed attributes keeps both surrogate keys. -/
theorem c2_idempotent_witness :
    ((process_customer_batch c2_customer_store [c2_customer_rec]).1.lookup "C001" = some 3 ∧
     (process_customer_batch c2_customer_store [c2_customer_rec]).1.nextKey =
       c2_customer_store.nextKey ∧
     (process_customer_batch c2_customer_store [c2_customer_rec]).1.rows.map keyPair =
       c2_customer_store.rows.map keyPair) ∧
    ((process_agent_batch c2_agent_store [c2_agent_rec]).1.lookup "A001" = some 9 ∧
     (process_agent_batch c2_agent_store [c2_agent_rec]).1.nextKey =
       c2_agent_store.nextKey ∧
     (process_agent_batch c2_agent_store [c2_agent_rec]).1.rows.map keyPair =
       c2_agent_store.rows.map keyPair ∧
     dictGet (process_agent_batch c2_agent_store [c2_agent_rec]).2 "A001" = some 9) :=
  c2_idempotent_surrogate_keys c2_customer_store c2_customer_rec 3
    c2_agent_store c2_agent_rec 9 (by decide) rfl (by decide) rfl

/-- C3: a claim whose business key is already in the existing_claims set is
counted once and only under duplicate_claims, and the fact store (rows and
duplicate set) is returned unchanged.  The right-hand side mentions neither
the Surrogate Key Directory nor the insert oracle, so the outcome is
independent of both: processing short-circuits before key resolution and no
insert or overwrite happens. -/
theorem c3_duplicate_short_circuit (insertOk : ResolvedClaim → Bool)
    (m : SurrogateKeyMappings) (st : FactStore) (c : ClaimRec)
    (hdup : st.existing.contains c.claim_id = true) :
    process_claims_batch insertOk [c] m st =
      ({ total_processed := 1, successfully_loaded := 0, failed_validation := 0,
         duplicate_claims := 1 }, st) := by
  have hdup2 : c.claim_id ∈ st.existing := by simpa using hdup
  simp [process_claims_batch, process_claim_record, hdup2, statsZero]

def c3_claim : ClaimRec :=
  { claim_id := "CLM001", customer_id := "C001", policy_id := "P001"
    agent_id := "A001", filed_date_key := some 20240101, closed_date_key := none
    claim_amount := 100, coverage_amount := 1000, deductible_amount := 50
    payout_amount := 80, processing_days := 10, claim_status := "Open" }

def c3_store : FactStore := { rows := [], existing := ["CLM001"] }

def c3_mappings : SurrogateKeyMappings :=
  { dim_customer := [("C001", 1)], dim_policy := [("P001", 1)]
    dim_agent := [("A001", 1)] }

/-- C3 witness: CLM001 is already persisted, so the batch reports one
duplicate and leaves the store untouched. -/
theorem c3_duplicate_witness :
    process_claims_batch (fun _ => true) [c3_claim] c3_mappings c3_store =
      ({ total_processed := 1, successfully_loaded := 0, failed_validation := 0,
         duplicate_claims := 1 }, c3_store) :=
  c3_duplicate_short_circuit (fun _ => true) c3_mappings c3_store c3_claim (by decide)

/-- C4: a claim with any required dimension reference absent from the
Surrogate Key Directory fails resolution, and (when it is not a duplicate)
the single-record batch counts it once under failed_validation and leaves the
fact store untouched; the batch function is total, so no exception
escapes. -/
theorem c4_missing_reference_rejected (insertOk : ResolvedClaim → Bool)
    (m : SurrogateKeyMappings) (st : FactStore) (c : ClaimRec)
    (hdup : st.existing.contains c.claim_id = false)
    (hmiss : dictGet m.dim_customer c.customer_id = none ∨
             dictGet m.dim_policy c.policy_id = none ∨
             dictGet m.dim_agent c.agent_id = none) :
    resolve_surrogate_keys c m = none ∧
    process_claims_batch insertOk [c] m st =
      ({ total_processed := 1, successfully_loaded := 0, failed_validation := 1,
         duplicate_claims := 0 }, st) := by
  have hres := resolve_none_of_missing c m hmiss
  exact ⟨hres, batch_single_failed insertOk m st c hdup hres⟩

def c4_claim : ClaimRec :=
  { claim_id := "CLM002", customer_id := "C999", policy_id := "P001"
    agent_id := "A001", filed_date_key := some 20240101, closed_date_key := none
    claim_amount := 100, coverage_amount := 1000, deductible_amount := 50
    payout_amount := 80, processing_days := 10, claim_status := "Open" }

def c4_store : FactStore := { rows := [], existing := [] }

/-- C4 witness: the Directory has no entry for C999, so the claim is
rejected, counted under failed_validation, and not loaded. -/
theorem c4_missing_reference_witness :
    resolve_surrogate_keys c4_claim c3_mappings = none ∧
    process_claims_batch (fun _ => true) [c4_claim] c3_mappings c4_store =
      ({ total_processed := 1, successfully_loaded := 0, failed_validation := 1,
         duplicate_claims := 0 }, c4_store) :=
  c4_missing_reference_rejected (fun _ => true) c3_mappings c4_store c4_claim
    (by decide) (Or.inl (by decide))

def c5_customer_store : DimStore CustomerAttrs :=
  { rows := [(5, "C002", exCAttrs)], nextKey := 6 }

def c5_customer_batch : List CustomerRec :=
  [ { customer_id := "C001", attrs := exCAttrs, dbFails := true }
  , { customer_id := "C002", attrs := exCAttrs2, dbFails := false }
  , { customer_id := "C003", attrs := exCAttrs, dbFails := false }
  , { customer_id := "C004", attrs := exCAttrs, dbFails := false }
  , { customer_id := "C005", attrs := exCAttrs, dbFails := false }
  , { customer_id := "C006", attrs := exCAttrs, dbFails := false }
  , { customer_id := "C007", attrs := exCAttrs, dbFails := false }
  , { customer_id := "C008", attrs := exCAttrs, dbFails := false }
  , { customer_id := "C009", attrs := exCAttrs, dbFails := false }
  , { customer_id := "C010", attrs := exCAttrs, dbFails := false } ]

def c5_agent_store : DimStore AgentAttrs :=
  { rows := [(5, "C002", exAAttrs)], nextKey := 6 }

def c5_agent_batch : List AgentRec :=
  [ { agent_id := "C001", attrs := exAAttrs, dbFails := true }
  , { agent_id := "C002", attrs := exAAttrs2, dbFails := false }
  , { agent_id := "C003", attrs := exAAttrs, dbFails := false }
  , { agent_id := "C004", attrs := exAAttrs, dbFails := false }
  , { agent_id := "C005", attrs := exAAttrs, dbFails := false }
  , { agent_id := "C006", attrs := exAAttrs, dbFails := false }
  , { agent_id := "C007", attrs := exAAttrs, dbFails := false }
  , { agent_id := "C008", attrs := exAAttrs, dbFails := false }
  , { agent_id := "C009", attrs := exAAttrs, dbFails := false }
  , { agent_id := "C010", attrs := exAAttrs, dbFails := false } ]

/-- C5: evaluation at a 10-record batch where exactly one record (C001) fails
on persistence and one other record (C002) is an update of an existing key.
Processing never raises (the functions are total) and all nine non-failing
records reach the store: the customer store ends with 9 rows (8 inserts under
keys 6..13 plus the update of C002).  But the customer batch returns only 8
mapping entries, not the 9 the claim requires, because the updated record's
pair is dropped by the same insert-only recording slip as in C1; the agent
reference implementation of the identical algorithm returns all 9 entries. -/
theorem c5_partial_batch_resilience :
    (process_customer_batch c5_customer_store c5_customer_batch).2.length = 8 ∧
    (process_customer_batch c5_customer_store c5_customer_batch).1.rows.length = 9 ∧
    (process_customer_batch c5_customer_store c5_customer_batch).1.nextKey = 14 ∧
    dictGet (process_customer_batch c5_customer_store c5_customer_batch).2 "C002" = none ∧
    (process_agent_batch c5_agent_store c5_agent_batch).2.length = 9 ∧
    (process_agent_batch c5_agent_store c5_agent_batch).1.rows.length = 9 := by
  decide

def c6_fact_row : ResolvedClaim :=
  { claim_id := "CLM100", customer_key := 1, policy_key := 1, agent_key := 1
    filed_date_key := 20240101, closed_date_key := none, claim_amount := 100
    coverage_amount := 1000, deductible_amount := 50, payout_amount := 80
    processing_days := 10, claim_status := "Open" }

def c6_warehouse : Warehouse :=
  { fact_claims := [c6_fact_row], customer_keys := [1], policy_keys := [1]
    agent_keys := [2], date_keys := [20240101] }

/-- C6: the validator's overall Boolean is true exactly when every checked
reference category (customers, policies, agents, filed dates, in that order)
has zero orphaned rows; and on a warehouse whose single fact row carries an
agent_key matching no agent-dimension row, it reports all_valid = false with
the per-category orphan counts 0, 0, 1, 0. -/
theorem c6_referential_integrity_validator (w : Warehouse) :
    (validate_fact_referential_integrity w =
      (orphaned_counts w).all (fun c => c == 0)) ∧
    validate_fact_referential_integrity c6_warehouse = false ∧
    orphaned_counts c6_warehouse = [0, 0, 1, 0] := by
  refine ⟨?_, by decide, by decide⟩
  unfold validate_fact_referential_integrity
  rw [validator_foldl_all]
  simp

/-- C7: chunking is semantically transparent.  For every positive batch size,
loading the customer dimension in chunks produces the same final store as
processing the whole list as one batch and a surrogate-key mapping with the
same lookup function (Python dict equality), and loading claim facts in
chunks produces exactly the same statistics totals and fact store as
processing the whole list as one batch. -/
theorem c7_chunking_transparent (n : Nat) (s : DimStore CustomerAttrs)
    (customers : List CustomerRec) (insertOk : ResolvedClaim → Bool)
    (m : SurrogateKeyMappings) (claims : List ClaimRec) (st : FactStore)
    (hn : 0 < n) :
    (load_customer_dimension n s customers).1 =
      (process_customer_batch s customers).1 ∧
    dictGet (load_customer_dimension n s customers).2 =
      dictGet (process_customer_batch s customers).2 ∧
    load_claims_facts insertOk n claims m st =
      process_claims_batch insertOk claims m st := by
  have hc := customer_chunks_fold (chunkList n customers) s []
  rw [chunkList_flatten n hn customers] at hc
  refine ⟨?_, ?_, ?_⟩
  · simp only [load_customer_dimension, process_customer_batch]
    exact hc.1
  · funext k
    simp only [load_customer_dimension, process_customer_batch]
    rw [hc.2 k]
    cases hx : dictGet (customers.foldl process_customer_record (s, [])).2 k <;>
      simp [hx, dictGet_nil]
  · have hf := claims_chunks_fold (chunkList n claims) insertOk m (statsZero, st)
    rw [chunkList_flatten n hn claims] at hf
    simp only [load_claims_facts, process_claims_batch]
    rw [hf]
    simp [stats_zero_add]

def c7_customer_store : DimStore CustomerAttrs :=
  { rows := [(1, "C001", exCAttrs)], nextKey := 2 }

def c7_customers : List CustomerRec :=
  [ { customer_id := "C001", attrs := exCAttrs2, dbFails := false }
  , { customer_id := "C002", attrs := exCAttrs, dbFails := false }
  , { customer_id := "C003", attrs := exCAttrs, dbFails := true } ]

def c7_fact_store : FactStore := { rows := [], existing := ["CLM900"] }

def c7_claims : List ClaimRec :=
  [ { claim_id := "CLM901", customer_id := "C001", policy_id := "P001"
      agent_id := "A001", filed_date_key := some 20240101
      closed_date_key := some 20240201, claim_amount := 100
      coverage_amount := 1000, deductible_amount := 50, payout_amount := 80
      processing_days := 10, claim_status := "Open" }
  , { claim_id := "CLM900", customer_id := "C001", policy_id := "P001"
      agent_id := "A001", filed_date_key := some 20240101
      closed_date_key := none, claim_amount := 200
      coverage_amount := 1000, deductible_amount := 50, payout_amount := 120
      processing_days := 5, claim_status := "Closed" }
  , { claim_id := "CLM902", customer_id := "C999", policy_id := "P001"
      agent_id := "A001", filed_date_key := some 20240101
      closed_date_key := none, claim_amount := 300
      coverage_amount := 1000, deductible_amount := 50, payout_amount := 150
      processing_days := 7, claim_status := "Open" }  ]

/-- C7 witness: with batch size 2, a 3-record customer batch (one update, one
insert, one failing record) and a 3-record claims batch (one accepted, one
duplicate, one unresolvable) split into two chunks give exactly the
single-chunk results. -/
theorem c7_chunking_witness :
    (load_customer_dimension 2 c7_customer_store c7_customers).1 =
      (process_customer_batch c7_customer_store c7_customers).1 ∧
    dictGet (load_customer_dimension 2 c7_customer_store c7_customers).2 =
      dictGet (process_customer_batch c7_customer_store c7_customers).2 ∧
    load_claims_facts (fun _ => true) 2 c7_claims c3_mappings c7_fact_store =
      process_claims_batch (fun _ => true) c7_claims c3_mappings c7_fact_store :=
  c7_chunking_transparent 2 c7_customer_store c7_customers (fun _ => true)
    c3_mappings c7_claims c7_fact_store (by decide)

/-- The resolved record built by resolve_surrogate_keys from a claim record
once its three dimension references have resolved to kc, kp, ka, its filed
date key is f, and its optional closed date key resolved to closed; measures
and the status are passed through from the claim unchanged. -/
def mk_resolved (c : ClaimRec) (kc kp ka : Nat) (f : Int) (closed : Option Int) :
    ResolvedClaim :=
  { claim_id := c.claim_id, customer_key := kc, policy_key := kp, agent_key := ka
    filed_date_key := f, closed_date_key := closed
    claim_amount := c.claim_amount, coverage_amount := c.coverage_amount
    deductible_amount := c.deductible_amount, payout_amount := c.payout_amount
    processing_days := c.processing_days, claim_status := c.claim_status }

/-- C8: when all required references resolve (nonzero keys in the Directory
and a nonzero filed date), resolution succeeds; the optional closed date
becomes null when the raw value is absent or non-positive, and a positive raw
value passes through unchanged.  Measures and status are carried over by
mk_resolved. -/
theorem c8_optional_closed_date (c : ClaimRec) (m : SurrogateKeyMappings)
    (kc kp ka : Nat) (f : Int)
    (h1 : dictGet m.dim_customer c.customer_id = some kc) (h1n : kc ≠ 0)
    (h2 : dictGet m.dim_policy c.policy_id = some kp) (h2n : kp ≠ 0)
    (h3 : dictGet m.dim_agent c.agent_id = some ka) (h3n : ka ≠ 0)
    (h4 : c.filed_date_key = some f) (h4n : f ≠ 0) :
    ((c.closed_date_key = none ∨ ∃ v, c.closed_date_key = some v ∧ v ≤ 0) →
      resolve_surrogate_keys c m = some (mk_resolved c kc kp ka f none)) ∧
    (∀ v, c.closed_date_key = some v → 0 < v →
      resolve_surrogate_keys c m = some (mk_resolved c kc kp ka f (some v))) := by
  constructor
  · intro hcl
    unfold resolve_surrogate_keys mk_resolved
    simp only [h1, h2, h3, h4, h1n, h2n, h3n, h4n, if_false]
    rcases hcl with hcl | ⟨v, hv, hvle⟩
    · rw [hcl]
    · rw [hv]
      simp [not_lt.mpr hvle]
  · intro v hv hvpos
    unfold resolve_surrogate_keys mk_resolved
    simp only [h1, h2, h3, h4, h1n, h2n, h3n, h4n, if_false]
    rw [hv]
    simp [hvpos]

def c8_claim : ClaimRec :=
  { claim_id := "CLM010", customer_id := "C001", policy_id := "P001"
    agent_id := "A001", filed_date_key := some 20240101
    closed_date_key := some (-3), claim_amount := 100, coverage_amount := 1000
    deductible_amount := 50, payout_amount := 80, processing_days := 10
    claim_status := "Open" }

def c8_mappings : SurrogateKeyMappings :=
  { dim_customer := [("C001", 3)], dim_policy := [("P001", 4)]
    dim_agent := [("A001", 5)] }

/-- C8 witness: a claim with a negative raw closed date key resolves
successfully with a null closed date key. -/
theorem c8_optional_closed_date_witness :
    resolve_surrogate_keys c8_claim c8_mappings =
      some (mk_resolved c8_claim 3 4 5 20240101 none) :=
  (c8_optional_closed_date c8_claim c8_mappings 3 4 5 20240101
      (by decide) (by decide) (by decide) (by decide) (by decide) (by decide)
      rfl (by decide)).1 (Or.inr ⟨-3, rfl, by decide⟩)

/-- C9: for every claims batch and for the aggregated run-level statistics,
total_processed equals successfully_loaded plus failed_validation plus
duplicate_claims: every processed record falls in exactly one outcome
category.  All four counters are natural numbers, hence non-negative by
construction. -/
theorem c9_statistics_partition (insertOk : ResolvedClaim → Bool)
    (claims : List ClaimRec) (m : SurrogateKeyMappings) (st : FactStore)
    (n : Nat) :
    ((process_claims_batch insertOk claims m st).1.total_processed =
      (process_claims_batch insertOk claims m st).1.successfully_loaded +
        (process_claims_batch insertOk claims m st).1.failed_validation +
        (process_claims_batch insertOk claims m st).1.duplicate_claims) ∧
    ((load_claims_facts insertOk n claims m st).1.total_processed =
      (load_claims_facts insertOk n claims m st).1.successfully_loaded +
        (load_claims_facts insertOk n claims m st).1.failed_validation +
        (load_claims_facts insertOk n claims m st).1.duplicate_claims) := by
  constructor
  · exact claims_fold_invariant claims insertOk m (statsZero, st)
      (by simp [statsZero])
  · unfold load_claims_facts
    rw [claims_chunks_fold (chunkList n claims) insertOk m (statsZero, st)]
    simp only [stats_zero_add]
    exact claims_fold_invariant (chunkList n claims).flatten insertOk m
      (statsZero, st) (by simp [statsZero])

/-- C10: resolution tests resolved keys by Python truthiness, so a Directory
entry carrying surrogate key 0 for the referenced business key is rejected
exactly like a missing entry, and a filed date key of None or 0 is rejected
as well; in a batch such a record (when not a duplicate) is counted under
failed_validation and nothing is loaded. -/
theorem c10_falsy_keys_rejected (m : SurrogateKeyMappings) (c : ClaimRec)
    (insertOk : ResolvedClaim → Bool) (st : FactStore) :
    (dictGet m.dim_customer c.customer_id = some 0 →
      resolve_surrogate_keys c m = none) ∧
    (dictGet m.dim_policy c.policy_id = some 0 →
      resolve_surrogate_keys c m = none) ∧
    (dictGet m.dim_agent c.agent_id = some 0 →
      resolve_surrogate_keys c m = none) ∧
    ((c.filed_date_key = none ∨ c.filed_date_key = some 0) →
      resolve_surrogate_keys c m = none) ∧
    (st.existing.contains c.claim_id = false → resolve_surrogate_keys c m = none →
      process_claims_batch insertOk [c] m st =
        ({ total_processed := 1, successfully_loaded := 0, failed_validation := 1,
           duplicate_claims := 0 }, st)) := by
  refine ⟨?_, ?_, ?_, ?_, ?_⟩
  · intro h
    unfold resolve_surrogate_keys
    simp [h]
  · intro h
    unfold resolve_surrogate_keys
    cases hc : dictGet m.dim_customer c.customer_id with
    | none => simp
    | some kc =>
      by_cases hkc : kc = 0
      · simp [hkc]
      · simp [hkc, h]
  · intro h
    unfold resolve_surrogate_keys
    cases hc : dictGet m.dim_customer c.customer_id with
    | none => simp
    | some kc =>
      by_cases hkc : kc = 0
      · simp [hkc]
      · cases hp : dictGet m.dim_policy c.policy_id with
        | none => simp [hkc]
        | some kp =>
          by_cases hkp : kp = 0
          · simp [hkc, hkp]
          · simp [hkc, hkp, h]
  · intro h
    unfold resolve_surrogate_keys
    cases hc : dictGet m.dim_customer c.customer_id with
    | none => simp
    | some kc =>
      by_cases hkc : kc = 0
      · simp [hkc]
      · cases hp : dictGet m.dim_policy c.policy_id with
        | none => simp [hkc]
        | some kp =>
          by_cases hkp : kp = 0
          · simp [hkc, hkp]
          · cases hag : dictGet m.dim_agent c.agent_id with
            | none => simp [hkc, hkp]
            | some ka =>
              by_cases hka : ka = 0
              · simp [hkc, hkp, hka]
              · rcases h with h | h <;> simp [hkc, hkp, hka, h]
  · intro hdup hres
    exact batch_single_failed insertOk m st c hdup hres

def c10_claim : ClaimRec :=
  { claim_id := "CLM020", customer_id := "C000", policy_id := "P001"
    agent_id := "A001", filed_date_key := none, closed_date_key := none
    claim_amount := 100, coverage_amount := 1000, deductible_amount := 50
    payout_amount := 80, processing_days := 10, claim_status := "Open" }

def c10_mappings : SurrogateKeyMappings :=
  { dim_customer := [("C000", 0)], dim_policy := [("P001", 1)]
    dim_agent := [("A001", 1)] }

def c10_store : FactStore := { rows := [], existing := [] }

/-- C10 witness: the Directory maps C000 to surrogate key 0 and the filed
date key is absent; the record is rejected and counted under
failed_validation. -/
theorem c10_falsy_keys_witness :
    resolve_surrogate_keys c10_claim c10_mappings = none ∧
    process_claims_batch (fun _ => true) [c10_claim] c10_mappings c10_store =
      ({ total_processed := 1, successfully_loaded := 0, failed_validation := 1,
         duplicate_claims := 0 }, c10_store) := by
  have h := c10_falsy_keys_rejected c10_mappings c10_claim (fun _ => true) c10_store
  exact ⟨h.1 (by decide), h.2.2.2.2 (by decide) (h.1 (by decide))⟩
